import Mathlib

/-!
Verification of the kubejs-utils behavior layer: the C4 arming/countdown
state machine (startup_scripts/C4.js, server_scripts/C4.js), the EventBus
(createEventBus), the DataBus (createDataBus), and the AreaControl boundary
cache, presence tracker and administrative commands (areacontrol.js).

JavaScript numbers are modelled as rationals (ℚ) where tolerance arithmetic
matters and as integers (ℤ) for block coordinates; JS objects used as maps
are modelled as functions into Option; a thrown Error is modelled as Except.
-/

/-! ## BoundaryCache (areacontrol.js: updateBounds / isPositionInArea) -/

/-- Area bounds record, mirroring the `bounds` object of areacontrol.js. -/
structure AreaBounds where
  minX : Int
  maxX : Int
  minZ : Int
  maxZ : Int
deriving DecidableEq, Repr

/-- Config center, mirroring `config.center` of areacontrol.js. -/
structure Center where
  x : Int
  y : Int
  z : Int
deriving DecidableEq, Repr

/-- `updateBounds(center, radius)` from areacontrol.js: pre-computes the four
scalar bounds from the center and radius. The y coordinate of the center is
not read. -/
def updateBounds (center : Center) (radius : Int) : AreaBounds :=
  { minX := center.x - radius
    maxX := center.x + radius
    minZ := center.z - radius
    maxZ := center.z + radius }

/-- `isPositionInArea(x, z)` from areacontrol.js: four-comparison membership
test against the pre-computed bounds; the function takes no y argument. -/
def isPositionInArea (bounds : AreaBounds) (x z : Int) : Bool :=
  decide (x ≥ bounds.minX) && decide (x ≤ bounds.maxX) &&
    decide (z ≥ bounds.minZ) && decide (z ≤ bounds.maxZ)

/-! ## PresenceTracker (areacontrol.js: checkPlayerAreaStatus, loggedIn) -/

/-- The two side effects a presence check can trigger
(handlePlayerEnterArea / handlePlayerLeaveArea). -/
inductive AreaEffect where
  | enter
  | leave
deriving DecidableEq, Repr

/-- One invocation of `checkPlayerAreaStatus` for a single player, given the
gate (config.enabled and the whitelist condition of the guard clause), the
cached state `playerStates[playerId]` (`none` models a missing entry /
`undefined`) and the fresh membership result `isCurrentlyInArea`. Returns
the side effects triggered and the updated cached state. -/
def checkPlayerAreaStatus (gate : Bool) (cached : Option Bool)
    (isCurrentlyInArea : Bool) : List AreaEffect × Option Bool :=
  if !gate then ([], cached)
  else if cached ≠ some isCurrentlyInArea then
    (if isCurrentlyInArea then [AreaEffect.enter]
     else if cached = some true then [AreaEffect.leave]
     else [],
     some isCurrentlyInArea)
  else ([], cached)

/-- Runs a sequence of `checkPlayerAreaStatus` invocations for one player,
accumulating the triggered side effects. -/
def runChecks (gate : Bool) (cached : Option Bool) :
    List Bool → List AreaEffect × Option Bool
  | [] => ([], cached)
  | inArea :: rest =>
    let step := checkPlayerAreaStatus gate cached inArea
    let next := runChecks gate step.2 rest
    (step.1 ++ next.1, next.2)

/-- The `PlayerEvents.loggedIn` handler of areacontrol.js restricted to its
presence bookkeeping: it seeds `playerStates[player]` with the fresh
membership result and fires the enter effect when the player logs in inside
the area while the system is enabled. -/
def loggedInHandler (enabled : Bool) (isInArea : Bool) :
    List AreaEffect × Option Bool :=
  ((if isInArea && enabled then [AreaEffect.enter] else []), some isInArea)

/-! ## Administrative commands (areacontrol.js) -/

/-- The slice of `config` the set-radius subcommand touches. -/
structure AreaConfig where
  center : Center
  radius : Int
deriving DecidableEq, Repr

/-- Outcome of one subcommand invocation: whether the handler reported
success (`sendSuccess`) or failure (`sendFailure`), the integer it returned
to the command dispatcher, and the resulting config and bounds. -/
structure RadiusCmdOutcome where
  reportedSuccess : Bool
  exitCode : Int
  config : AreaConfig
  bounds : AreaBounds
deriving DecidableEq, Repr

/-- `setRadiusCommand` from the second iteration of areacontrol.js
(bound check `radius < 1 || radius > 8192`). -/
def setRadiusCommand (cfg : AreaConfig) (bounds : AreaBounds)
    (radius : Int) : RadiusCmdOutcome :=
  if radius < 1 ∨ radius > 8192 then
    { reportedSuccess := false, exitCode := 0, config := cfg, bounds := bounds }
  else
    { reportedSuccess := true, exitCode := 1
      config := { cfg with radius := radius }
      bounds := updateBounds cfg.center radius }

/-- `setRadiusCommand` from the first iteration of areacontrol.js
(bound check `radius < 1 || radius > 1000`). -/
def setRadiusCommandV1 (cfg : AreaConfig) (bounds : AreaBounds)
    (radius : Int) : RadiusCmdOutcome :=
  if radius < 1 ∨ radius > 1000 then
    { reportedSuccess := false, exitCode := 0, config := cfg, bounds := bounds }
  else
    { reportedSuccess := true, exitCode := 1
      config := { cfg with radius := radius }
      bounds := updateBounds cfg.center radius }

/-- Outcome of one whitelist subcommand invocation. -/
structure WhitelistCmdOutcome where
  reportedSuccess : Bool
  exitCode : Int
  whitelist : List String
deriving DecidableEq, Repr

/-- `whitelistAddCommand` from areacontrol.js (identical in both iterations):
when `config.whitelist.indexOf(playerName) === -1` it pushes the name and
reports success, otherwise it reports failure; either way the handler body
ends with `return 1`. -/
def whitelistAddCommand (whitelist : List String) (playerName : String) :
    WhitelistCmdOutcome :=
  if !whitelist.contains playerName then
    { reportedSuccess := true, exitCode := 1
      whitelist := whitelist ++ [playerName] }
  else
    { reportedSuccess := false, exitCode := 1, whitelist := whitelist }

/-- `whitelistRemoveCommand` from areacontrol.js: when the name is found it
is spliced out and success is reported, otherwise failure is reported;
either way the handler body ends with `return 1`. -/
def whitelistRemoveCommand (whitelist : List String) (playerName : String) :
    WhitelistCmdOutcome :=
  if whitelist.contains playerName then
    { reportedSuccess := true, exitCode := 1
      whitelist := whitelist.erase playerName }
  else
    { reportedSuccess := false, exitCode := 1, whitelist := whitelist }

/-! ## EventBus (createEventBus) -/

/-- The event bus of createEventBus: a JS object keyed by topic holding at
most one callback per topic, modelled as a function into Option. -/
structure EventBus (α β : Type) where
  eventMap : String → Option (α → β)

/-- The initial bus: `eventMap: {}`. -/
def EventBus.empty {α β : Type} : EventBus α β :=
  { eventMap := fun _ => none }

/-- `register(eventName, callback)`: `this.eventMap[eventName] = callback`. -/
def EventBus.register {α β : Type} (bus : EventBus α β) (eventName : String)
    (callback : α → β) : EventBus α β :=
  { eventMap := fun t => if t = eventName then some callback else bus.eventMap t }

/-- `emit(eventName, event)`: looks up the callback and invokes it,
returning its result, or returns undefined (`none`) when no callback is
bound. -/
def EventBus.emit {α β : Type} (bus : EventBus α β) (eventName : String)
    (event : α) : Option β :=
  match bus.eventMap eventName with
  | some callback => some (callback event)
  | none => none

/-! ## DataBus (startup_scripts/DataBus.js: createDataBus) -/

/-- The data-exchange bus of createDataBus: a `Map` from export names to
values, modelled as a function into Option. -/
structure DataBus (V : Type) where
  dataMap : String → Option V

/-- The initial bus: `new Map()`. -/
def DataBus.emptyBus {V : Type} : DataBus V :=
  { dataMap := fun _ => none }

/-- `export(name, value)`: `dataMap.set(name, value)`. -/
def DataBus.exportVal {V : Type} (bus : DataBus V) (name : String) (value : V) :
    DataBus V :=
  { dataMap := fun n => if n = name then some value else bus.dataMap n }

/-- `hasExport(name)`: `dataMap.has(name)`. -/
def DataBus.hasExport {V : Type} (bus : DataBus V) (name : String) : Bool :=
  (bus.dataMap name).isSome

/-- `import(name)`: throws an Error when `!dataMap.has(name)`, otherwise
returns `dataMap.get(name)`. The thrown Error is modelled as `Except.error`
carrying the message text. -/
def DataBus.importVal {V : Type} (bus : DataBus V) (name : String) :
    Except String V :=
  match bus.dataMap name with
  | none => Except.error ("DataBus: export " ++ name ++ " not found")
  | some v => Except.ok v

/-- Replays a history of `export` calls onto the fresh bus, in order. -/
def DataBus.runExports {V : Type} (ops : List (String × V)) : DataBus V :=
  ops.foldl (fun bus op => bus.exportVal op.1 op.2) DataBus.emptyBus

/-! ## C4 validator (startup_scripts/C4.js) -/

/-- `ANGLE_TOLERANCE = 0.001` from startup_scripts/C4.js. -/
def ANGLE_TOLERANCE : ℚ := 1 / 1000

/-- `POS_TOLERANCE = 0.01` from startup_scripts/C4.js. -/
def POS_TOLERANCE : ℚ := 1 / 100

/-- A floating triple (position or orientation), modelled over ℚ. -/
structure Vec3 where
  x : ℚ
  y : ℚ
  z : ℚ
deriving DecidableEq

/-- An integer block coordinate. -/
structure BlockPos where
  x : Int
  y : Int
  z : Int
deriving DecidableEq, Repr

/-- `isApproximatelyEqual(a, b, tolerance)`: `Math.abs(a - b) <= tolerance`. -/
def isApproximatelyEqual (a b tolerance : ℚ) : Bool :=
  decide (|a - b| ≤ tolerance)

/-- `getBlockUnderPlayer(player)`: floors the player position and steps one
block down on the y axis. -/
def getBlockUnderPlayer (playerPos : Vec3) : BlockPos :=
  { x := ⌊playerPos.x⌋, y := ⌊playerPos.y⌋ - 1, z := ⌊playerPos.z⌋ }

/-- One entry of `lastPlayerInfoMap`: the snapshot captured when a use
session starts. -/
structure PlayerInfo where
  angle : Vec3
  pos : Vec3
  blockPos : BlockPos
deriving DecidableEq

/-- `shouldActivateC4(itemstack, level, player)` from startup_scripts/C4.js.
The level is abstracted to the block-id query `blockIdAt`; the player is
abstracted to its position, look angle and the snapshot stored for its uuid
(`none` models a missing `lastPlayerInfoMap` entry). -/
def shouldActivateC4 (itemstackId : String) (blockIdAt : BlockPos → String)
    (playerPos lookAngle : Vec3) (lastPlayerInfo : Option PlayerInfo) : Bool :=
  let blockUnder := getBlockUnderPlayer playerPos
  let blockId := blockIdAt blockUnder
  match lastPlayerInfo with
  | none => false
  | some info =>
    let currentBlockPos := getBlockUnderPlayer playerPos
    let isBlockPosChanged :=
      decide (currentBlockPos.x ≠ info.blockPos.x) ||
        decide (currentBlockPos.y ≠ info.blockPos.y) ||
        decide (currentBlockPos.z ≠ info.blockPos.z)
    let isPosChanged :=
      !isApproximatelyEqual playerPos.x info.pos.x POS_TOLERANCE ||
        !isApproximatelyEqual playerPos.y info.pos.y POS_TOLERANCE ||
        !isApproximatelyEqual playerPos.z info.pos.z POS_TOLERANCE
    let isAngleChanged :=
      !isApproximatelyEqual lookAngle.x info.angle.x ANGLE_TOLERANCE ||
        !isApproximatelyEqual lookAngle.y info.angle.y ANGLE_TOLERANCE ||
        !isApproximatelyEqual lookAngle.z info.angle.z ANGLE_TOLERANCE
    let isPlayerInfoChanged := isBlockPosChanged || isPosChanged || isAngleChanged
    decide (blockId = "kubejs:c4_target") && !isPlayerInfoChanged &&
      decide (itemstackId = "kubejs:c4_item")

/-- `shouldStartUseC4(player, level)` from startup_scripts/C4.js, as a state
transformer on `lastPlayerInfoMap` (modelled as a function from uuid strings
into Option). Returns the boolean result and the updated map. -/
def shouldStartUseC4 (blockIdAt : BlockPos → String) (playerUuid : String)
    (playerPos lookAngle : Vec3)
    (lastPlayerInfoMap : String → Option PlayerInfo) :
    Bool × (String → Option PlayerInfo) :=
  let blockUnder := getBlockUnderPlayer playerPos
  let blockId := blockIdAt blockUnder
  if blockId ≠ "kubejs:c4_target" then
    (false, lastPlayerInfoMap)
  else if (lastPlayerInfoMap playerUuid).isSome then
    (false, lastPlayerInfoMap)
  else
    (true,
     fun u =>
       if u = playerUuid then
         some { angle := lookAngle, pos := playerPos, blockPos := blockUnder }
       else lastPlayerInfoMap u)

/-! ## C4 countdown simulation (unnamed server script `handleC4Activated`
and the `BlockEvents.broken` handler of server_scripts/C4.js) -/

/-- `C4_EXPLOSION_TIME = 3 * 20` ticks. -/
def C4_EXPLOSION_TIME : Nat := 3 * 20

/-- The `toExplosionC4Map` entry for the placed device position:
`armed` models the value `true`, `defusedNull` the value `null` written by
the break handler, `absent` a missing key. -/
inductive C4Entry where
  | absent
  | armed
  | defusedNull
deriving DecidableEq, Repr

/-- Observable state of one placed C4 device: its map entry, the
`remainingSeconds` counter captured by the broadcast closure, whether the
repeating broadcast timer is still scheduled (`scheduledEvent.clear()` not
yet called), the log of countdown broadcasts as (tick, remainingSeconds)
pairs, the number of defused notifications sent to all players, and whether
`level.explode` was invoked. -/
structure C4SimState where
  entry : C4Entry
  remainingSeconds : Int
  broadcastActive : Bool
  broadcasts : List (Nat × Int)
  defuseNotices : Nat
  explosionFired : Bool
deriving DecidableEq, Repr

/-- The state right after `handleC4Activated` runs at tick 0: the block is
set, `toExplosionC4Map[pos] = true`, `remainingSeconds = explosionTime / 20`,
and the repeating 20-tick broadcast timer plus the one-shot explosion timer
are registered. -/
def placeC4 : C4SimState :=
  { entry := C4Entry.armed
    remainingSeconds := (C4_EXPLOSION_TIME : Int) / 20
    broadcastActive := true
    broadcasts := []
    defuseNotices := 0
    explosionFired := false }

/-- The `BlockEvents.broken` handler of server_scripts/C4.js applied to the
device position: a non-C4 block id is ignored; when the map entry is `true`
it is set to `null` and every player is told the device was defused. -/
def breakC4Block (blockId : String) (s : C4SimState) : C4SimState :=
  if blockId ≠ "kubejs:c4" then s
  else if s.entry = C4Entry.armed then
    { s with entry := C4Entry.defusedNull, defuseNotices := s.defuseNotices + 1 }
  else s

/-- One firing of the repeating broadcast timer of `handleC4Activated`:
clears itself when the map entry is `null`, decrements `remainingSeconds`,
clears itself without broadcasting when the remainder reaches zero, and
otherwise tells every player the remaining seconds. -/
def broadcastTimerStep (tick : Nat) (s : C4SimState) : C4SimState :=
  if !s.broadcastActive then s
  else if s.entry = C4Entry.defusedNull then
    { s with broadcastActive := false }
  else
    let r := s.remainingSeconds - 1
    if r ≤ 0 then { s with remainingSeconds := r, broadcastActive := false }
    else
      { s with remainingSeconds := r, broadcasts := s.broadcasts ++ [(tick, r)] }

/-- The one-shot explosion timer of `handleC4Activated`: skips the terminal
world mutation when the map entry is `null`, otherwise invokes
`level.explode`. -/
def explosionTimerStep (s : C4SimState) : C4SimState :=
  if s.entry = C4Entry.defusedNull then s
  else { s with explosionFired := true }

/-- One world tick after placement: the break event for the device (when
scheduled at this tick) is delivered, then the repeating broadcast timer
fires when due (it was registered at tick 0 with period 20), then the
one-shot explosion timer fires when due. -/
def c4SimTick (breakTick : Option Nat) (tick : Nat) (s : C4SimState) :
    C4SimState :=
  let s1 := if breakTick = some tick then breakC4Block "kubejs:c4" s else s
  let s2 := if tick % 20 = 0 then broadcastTimerStep tick s1 else s1
  if tick = C4_EXPLOSION_TIME then explosionTimerStep s2 else s2

/-- Runs the device session from placement at tick 0 through the detonation
tick, optionally delivering a block-broken event at `breakTick`. -/
def runC4Sim (breakTick : Option Nat) : C4SimState :=
  (List.range C4_EXPLOSION_TIME).foldl
    (fun s i => c4SimTick breakTick (i + 1) s) placeC4

/-- The countdown broadcasts scheduled by the `handleC4Activated` iteration
of startup_scripts/C4.js: the loop `for (let i = 0; i < explosionTime;
i += 20)` registers a one-shot broadcast at tick `i` showing
`(explosionTime - i) / 20` remaining seconds. -/
def startupC4Broadcasts (explosionTime : Nat) (i : Nat) : List (Nat × Nat) :=
  if i < explosionTime then
    (i, (explosionTime - i) / 20) :: startupC4Broadcasts explosionTime (i + 20)
  else []
termination_by explosionTime - i
decreasing_by omega

/-- The full broadcast schedule of the startup-script iteration. -/
def startupC4BroadcastTicks (explosionTime : Nat) : List (Nat × Nat) :=
  startupC4Broadcasts explosionTime 0

/-! ## Helper lemmas -/

/-- A check whose membership result equals the cached state is a no-op. -/
theorem runChecks_steady (b : Bool) :
    ∀ n : Nat, runChecks true (some b) (List.replicate n b) = ([], some b)
  | 0 => rfl
  | n + 1 => by
    simp only [List.replicate_succ, runChecks, checkPlayerAreaStatus]
    simp [runChecks_steady b n]

/-- Replaying exports onto any bus: a name is present afterwards exactly
when it occurs in the replayed history or was present before. -/
theorem runExports_isSome_aux {V : Type} (ops : List (String × V)) :
    ∀ (bus : DataBus V) (name : String),
      (((ops.foldl (fun b op => b.exportVal op.1 op.2) bus).dataMap name).isSome
        = true) ↔
      (name ∈ ops.map Prod.fst ∨ (bus.dataMap name).isSome = true) := by
  induction ops with
  | nil => intro bus name; simp
  | cons op rest ih =>
    intro bus name
    rw [List.foldl_cons, ih]
    by_cases h : name = op.1 <;> simp [DataBus.exportVal, h]

/-- `importVal` succeeds exactly when the name is present in the map. -/
theorem importVal_isOk {V : Type} (bus : DataBus V) (name : String) :
    (bus.importVal name).isOk = (bus.dataMap name).isSome := by
  unfold DataBus.importVal
  cases bus.dataMap name <;> rfl

/-- Componentwise characterization of block-position equality. -/
theorem BlockPos.eq_iff (a b : BlockPos) :
    a = b ↔ a.x = b.x ∧ a.y = b.y ∧ a.z = b.z := by
  cases a; cases b; simp

/-- The validator accepts exactly when the item and target-block ids match
and every coordinate of the snapshot is reproduced within its tolerance
(exactly, for the discretized support block). -/
theorem shouldActivateC4_eq_true_iff (itemstackId : String)
    (blockIdAt : BlockPos → String) (playerPos lookAngle : Vec3)
    (info : PlayerInfo) :
    shouldActivateC4 itemstackId blockIdAt playerPos lookAngle (some info)
      = true ↔
      (blockIdAt (getBlockUnderPlayer playerPos) = "kubejs:c4_target" ∧
       getBlockUnderPlayer playerPos = info.blockPos ∧
       |playerPos.x - info.pos.x| ≤ POS_TOLERANCE ∧
       |playerPos.y - info.pos.y| ≤ POS_TOLERANCE ∧
       |playerPos.z - info.pos.z| ≤ POS_TOLERANCE ∧
       |lookAngle.x - info.angle.x| ≤ ANGLE_TOLERANCE ∧
       |lookAngle.y - info.angle.y| ≤ ANGLE_TOLERANCE ∧
       |lookAngle.z - info.angle.z| ≤ ANGLE_TOLERANCE ∧
       itemstackId = "kubejs:c4_item") := by
  simp only [shouldActivateC4, isApproximatelyEqual, Bool.and_eq_true,
    Bool.or_eq_true, Bool.not_eq_true', Bool.or_eq_false_iff,
    Bool.not_eq_false', decide_eq_true_eq, decide_eq_false_iff_not, not_not,
    BlockPos.eq_iff]
  tauto

/-- Unfolding the startup-script broadcast loop while the counter is below
the fuse time. -/
theorem startupC4Broadcasts_pos (et i : Nat) (h : i < et) :
    startupC4Broadcasts et i
      = (i, (et - i) / 20) :: startupC4Broadcasts et (i + 20) := by
  rw [startupC4Broadcasts]
  exact if_pos h

/-- The startup-script broadcast loop terminates at the fuse time. -/
theorem startupC4Broadcasts_neg (et i : Nat) (h : ¬i < et) :
    startupC4Broadcasts et i = [] := by
  rw [startupC4Broadcasts]
  exact if_neg h

/-! ## Claim theorems -/

set_option maxRecDepth 4000 in
/-- C1: if the placed C4 block is broken at any tick before the detonation
tick 60, the session reaches the distinct terminal defused state: the
defused notification is sent exactly once, no countdown broadcast occurs at
or after the removal tick, and `level.explode` is never invoked. -/
theorem c1_break_before_detonation_defuses (t : Nat) (h1 : 1 ≤ t)
    (h2 : t < 60) :
    (runC4Sim (some t)).explosionFired = false ∧
    (runC4Sim (some t)).defuseNotices = 1 ∧
    (runC4Sim (some t)).entry = C4Entry.defusedNull ∧
    ∀ b ∈ (runC4Sim (some t)).broadcasts, b.1 < t := by
  have h : ∀ s : Nat, s < 60 → 1 ≤ s →
      (runC4Sim (some s)).explosionFired = false ∧
      (runC4Sim (some s)).defuseNotices = 1 ∧
      (runC4Sim (some s)).entry = C4Entry.defusedNull ∧
      ∀ b ∈ (runC4Sim (some s)).broadcasts, b.1 < s := by decide
  exact h t h2 h1

/-- C1 witness: removal at tick 59, one tick before the scheduled
detonation at tick 60. -/
theorem c1_break_before_detonation_defuses_witness :
    (runC4Sim (some 59)).explosionFired = false ∧
    (runC4Sim (some 59)).defuseNotices = 1 ∧
    (runC4Sim (some 59)).entry = C4Entry.defusedNull ∧
    ∀ b ∈ (runC4Sim (some 59)).broadcasts, b.1 < 59 :=
  c1_break_before_detonation_defuses 59 (by decide) (by decide)

/-- C2: the validator uses an angle epsilon strictly smaller than the
position epsilon, and `shouldActivateC4` returns false whenever any one of
the three re-validation checks fails — exact support-block mismatch,
per-axis position drift beyond `POS_TOLERANCE`, or per-axis orientation
drift beyond `ANGLE_TOLERANCE`; conversely it accepts when all three checks
pass and the block and item ids match. -/
theorem c2_validator_three_checks :
    ANGLE_TOLERANCE < POS_TOLERANCE ∧
    (∀ (itemstackId : String) (blockIdAt : BlockPos → String)
        (playerPos lookAngle : Vec3) (info : PlayerInfo),
      (getBlockUnderPlayer playerPos ≠ info.blockPos ∨
       POS_TOLERANCE < |playerPos.x - info.pos.x| ∨
       POS_TOLERANCE < |playerPos.y - info.pos.y| ∨
       POS_TOLERANCE < |playerPos.z - info.pos.z| ∨
       ANGLE_TOLERANCE < |lookAngle.x - info.angle.x| ∨
       ANGLE_TOLERANCE < |lookAngle.y - info.angle.y| ∨
       ANGLE_TOLERANCE < |lookAngle.z - info.angle.z|) →
      shouldActivateC4 itemstackId blockIdAt playerPos lookAngle (some info)
        = false) ∧
    (∀ (itemstackId : String) (blockIdAt : BlockPos → String)
        (playerPos lookAngle : Vec3) (info : PlayerInfo),
      getBlockUnderPlayer playerPos = info.blockPos →
      |playerPos.x - info.pos.x| ≤ POS_TOLERANCE →
      |playerPos.y - info.pos.y| ≤ POS_TOLERANCE →
      |playerPos.z - info.pos.z| ≤ POS_TOLERANCE →
      |lookAngle.x - info.angle.x| ≤ ANGLE_TOLERANCE →
      |lookAngle.y - info.angle.y| ≤ ANGLE_TOLERANCE →
      |lookAngle.z - info.angle.z| ≤ ANGLE_TOLERANCE →
      blockIdAt (getBlockUnderPlayer playerPos) = "kubejs:c4_target" →
      itemstackId = "kubejs:c4_item" →
      shouldActivateC4 itemstackId blockIdAt playerPos lookAngle (some info)
        = true) := by
  refine ⟨by norm_num [ANGLE_TOLERANCE, POS_TOLERANCE], ?_, ?_⟩
  · intro itemstackId blockIdAt playerPos lookAngle info h
    rcases Bool.eq_false_or_eq_true
        (shouldActivateC4 itemstackId blockIdAt playerPos lookAngle
          (some info)) with ht | hf
    swap
    · exact hf
    · exfalso
      obtain ⟨-, hbp, hp1, hp2, hp3, ha1, ha2, ha3, -⟩ :=
        (shouldActivateC4_eq_true_iff _ _ _ _ _).mp ht
      rcases h with h | h | h | h | h | h | h
      · exact h hbp
      · exact absurd hp1 (not_le.mpr h)
      · exact absurd hp2 (not_le.mpr h)
      · exact absurd hp3 (not_le.mpr h)
      · exact absurd ha1 (not_le.mpr h)
      · exact absurd ha2 (not_le.mpr h)
      · exact absurd ha3 (not_le.mpr h)
  · intro itemstackId blockIdAt playerPos lookAngle info hbp hp1 hp2 hp3 ha1
      ha2 ha3 hblk hitem
    exact (shouldActivateC4_eq_true_iff _ _ _ _ _).mpr
      ⟨hblk, hbp, hp1, hp2, hp3, ha1, ha2, ha3, hitem⟩

/-- C2 witness: a player who drifted 1/50 along the x axis (beyond the
1/100 position tolerance) while everything else matches is rejected. -/
theorem c2_validator_three_checks_witness :
    shouldActivateC4 "kubejs:c4_item" (fun _ => "kubejs:c4_target")
      ⟨1 / 50, 1 / 2, 1 / 2⟩ ⟨0, 0, 1⟩
      (some ⟨⟨0, 0, 1⟩, ⟨0, 1 / 2, 1 / 2⟩, ⟨0, -1, 0⟩⟩) = false :=
  c2_validator_three_checks.2.1 "kubejs:c4_item" (fun _ => "kubejs:c4_target")
    ⟨1 / 50, 1 / 2, 1 / 2⟩ ⟨0, 0, 1⟩ ⟨⟨0, 0, 1⟩, ⟨0, 1 / 2, 1 / 2⟩, ⟨0, -1, 0⟩⟩
    (Or.inr (Or.inl (by
      rw [show |(1 / 50 : ℚ) - 0| = 1 / 50 by norm_num]
      norm_num [POS_TOLERANCE])))

/-- C3: at most one arming session per entity. An arm-intent for an entity
with an existing snapshot returns false and leaves the whole map unchanged;
the intent succeeds exactly when the entity has no session and its support
block is the target marker; on success only that entity's entry gains the
freshly captured snapshot; and any failing intent leaves all state
unchanged. -/
theorem c3_single_session_per_entity :
    (∀ (blockIdAt : BlockPos → String) (playerUuid : String)
        (playerPos lookAngle : Vec3) (m : String → Option PlayerInfo),
      (m playerUuid).isSome = true →
      shouldStartUseC4 blockIdAt playerUuid playerPos lookAngle m
        = (false, m)) ∧
    (∀ (blockIdAt : BlockPos → String) (playerUuid : String)
        (playerPos lookAngle : Vec3) (m : String → Option PlayerInfo),
      (shouldStartUseC4 blockIdAt playerUuid playerPos lookAngle m).1 = true ↔
        (m playerUuid = none ∧
          blockIdAt (getBlockUnderPlayer playerPos) = "kubejs:c4_target")) ∧
    (∀ (blockIdAt : BlockPos → String) (playerUuid : String)
        (playerPos lookAngle : Vec3) (m : String → Option PlayerInfo),
      (shouldStartUseC4 blockIdAt playerUuid playerPos lookAngle m).1 = true →
        (shouldStartUseC4 blockIdAt playerUuid playerPos lookAngle m).2
            playerUuid =
          some { angle := lookAngle, pos := playerPos
                 blockPos := getBlockUnderPlayer playerPos } ∧
        ∀ u : String, u ≠ playerUuid →
          (shouldStartUseC4 blockIdAt playerUuid playerPos lookAngle m).2 u
            = m u) ∧
    (∀ (blockIdAt : BlockPos → String) (playerUuid : String)
        (playerPos lookAngle : Vec3) (m : String → Option PlayerInfo),
      (shouldStartUseC4 blockIdAt playerUuid playerPos lookAngle m).1 = false →
        (shouldStartUseC4 blockIdAt playerUuid playerPos lookAngle m).2
          = m) := by
  refine ⟨?_, ?_, ?_, ?_⟩
  · intro blockIdAt playerUuid playerPos lookAngle m h
    simp only [shouldStartUseC4]
    split_ifs with h1
    · rfl
    · rfl
  · intro blockIdAt playerUuid playerPos lookAngle m
    simp only [shouldStartUseC4]
    split_ifs with h1 h2
    · simp [h1]
    · simp only [Option.isSome_iff_ne_none] at h2
      simp [h2]
    · simp only [not_not] at h1
      simp only [Option.isSome_iff_ne_none, not_not] at h2
      simp [h1, h2]
  · intro blockIdAt playerUuid playerPos lookAngle m
    simp only [shouldStartUseC4]
    split_ifs with h1 h2
    · simp
    · simp
    · intro _
      refine ⟨by simp, fun u hu => by simp [hu]⟩
  · intro blockIdAt playerUuid playerPos lookAngle m
    simp only [shouldStartUseC4]
    split_ifs with h1 h2
    · intro _; rfl
    · intro _; rfl
    · simp

/-- C3 witness: a second arm-intent for uuid "p1", which already has a
snapshot, returns false and leaves the map untouched. -/
theorem c3_single_session_per_entity_witness :
    shouldStartUseC4 (fun _ => "kubejs:c4_target") "p1" ⟨0, 0, 0⟩ ⟨0, 0, 1⟩
        (fun u => if u = "p1"
          then some ⟨⟨0, 0, 1⟩, ⟨0, 0, 0⟩, ⟨0, -1, 0⟩⟩ else none)
      = (false, fun u => if u = "p1"
          then some ⟨⟨0, 0, 1⟩, ⟨0, 0, 0⟩, ⟨0, -1, 0⟩⟩ else none) :=
  c3_single_session_per_entity.1 (fun _ => "kubejs:c4_target") "p1"
    ⟨0, 0, 0⟩ ⟨0, 0, 1⟩
    (fun u => if u = "p1"
      then some ⟨⟨0, 0, 1⟩, ⟨0, 0, 0⟩, ⟨0, -1, 0⟩⟩ else none)
    (by simp)

/-- C4 counterexample: the `handleC4Activated` iteration of
startup_scripts/C4.js schedules three countdown broadcasts for a 60-tick
fuse — at ticks 0, 20 and 40 — so a broadcast is emitted at tick 0 and the
total is not 2. -/
theorem c4_startup_broadcast_counterexample :
    startupC4BroadcastTicks 60 = [(0, 3), (20, 2), (40, 1)] ∧
    (startupC4BroadcastTicks 60).length ≠ 2 ∧
    (0, 3) ∈ startupC4BroadcastTicks 60 := by
  have e60 : startupC4Broadcasts 60 60 = [] :=
    startupC4Broadcasts_neg 60 60 (by norm_num)
  have e40 : startupC4Broadcasts 60 40 = [(40, 1)] := by
    rw [startupC4Broadcasts_pos 60 40 (by norm_num)]
    norm_num [e60]
  have e20 : startupC4Broadcasts 60 20 = [(20, 2), (40, 1)] := by
    rw [startupC4Broadcasts_pos 60 20 (by norm_num)]
    norm_num [e40]
  have e0 : startupC4Broadcasts 60 0 = [(0, 3), (20, 2), (40, 1)] := by
    rw [startupC4Broadcasts_pos 60 0 (by norm_num)]
    norm_num [e20]
  rw [startupC4BroadcastTicks, e0]
  norm_num

/-- C4 (amended to the server-script iteration of `handleC4Activated`):
with the 60-tick fuse and 20-tick broadcast period, an undisturbed device
produces exactly two countdown broadcasts — at ticks 20 and 40, showing 2
and 1 remaining seconds — none at tick 0 and none at the detonation tick,
and detonates at tick 60. -/
theorem c4_broadcast_schedule :
    runC4Sim none =
      { entry := C4Entry.armed, remainingSeconds := 0
        broadcastActive := false, broadcasts := [(20, 2), (40, 1)]
        defuseNotices := 0, explosionFired := true } := by
  decide

/-- C5: for every center and radius `r ≥ 0`, after `updateBounds` the
membership test `isPositionInArea` accepts the center's (x, z) and rejects
(x + r + 1, z); the bounds (and hence the test, which takes no y argument)
do not depend on the vertical coordinate of the center. -/
theorem c5_bounds_roundtrip (center : Center) (r : Int) (h : 0 ≤ r) :
    isPositionInArea (updateBounds center r) center.x center.z = true ∧
    isPositionInArea (updateBounds center r) (center.x + r + 1) center.z
      = false ∧
    ∀ y : Int, updateBounds { center with y := y } r = updateBounds center r := by
  refine ⟨?_, ?_, fun y => rfl⟩
  · simp only [isPositionInArea, updateBounds, Bool.and_eq_true,
      decide_eq_true_eq]
    omega
  · simp only [isPositionInArea, updateBounds, Bool.and_eq_false_iff,
      decide_eq_false_iff_not, not_le]
    omega

/-- C5 witness at center (7, -3, 11) and radius 4. -/
theorem c5_bounds_roundtrip_witness :
    isPositionInArea (updateBounds ⟨7, -3, 11⟩ 4) 7 11 = true ∧
    isPositionInArea (updateBounds ⟨7, -3, 11⟩ 4) 12 11 = false ∧
    ∀ y : Int, updateBounds ⟨7, y, 11⟩ 4 = updateBounds ⟨7, -3, 11⟩ 4 :=
  c5_bounds_roundtrip ⟨7, -3, 11⟩ 4 (by decide)

/-- C6: presence tracking is edge-triggered. A player with no cache entry
who is inside on the first check triggers exactly one enter effect across
any run of all-inside checks; a player whose cached state matches an
unchanging membership status triggers zero effects across any number of
checks; and a login inside the region (which seeds the cache) triggers the
enter effect exactly once across the login and any number of later inside
checks. -/
theorem c6_presence_edge_triggered :
    (∀ n : Nat,
      runChecks true none (true :: List.replicate n true)
        = ([AreaEffect.enter], some true)) ∧
    (∀ (b : Bool) (n : Nat),
      runChecks true (some b) (List.replicate n b) = ([], some b)) ∧
    (∀ n : Nat,
      (loggedInHandler true true).1 ++
          (runChecks true (loggedInHandler true true).2
            (List.replicate n true)).1
        = [AreaEffect.enter]) := by
  refine ⟨fun n => ?_, fun b n => runChecks_steady b n, fun n => ?_⟩
  · simp only [runChecks, checkPlayerAreaStatus]
    simp [runChecks_steady true n]
  · simp [loggedInHandler, runChecks_steady true n]

/-- C7: the EventBus binds one handler per topic with last-write-wins
replacement; emit invokes the currently bound handler and returns its
result; registering one topic does not disturb another; and emit on a
topic with no bound handler returns the undefined result. -/
theorem c7_eventbus_contract :
    (∀ (α β : Type) (bus : EventBus α β) (t : String) (h1 h2 : α → β) (p : α),
      ((bus.register t h1).register t h2).emit t p = some (h2 p)) ∧
    (∀ (α β : Type) (bus : EventBus α β) (t : String) (h : α → β) (p : α),
      (bus.register t h).emit t p = some (h p)) ∧
    (∀ (α β : Type) (bus : EventBus α β) (t t' : String) (h : α → β) (p : α),
      t' ≠ t → (bus.register t h).emit t' p = bus.emit t' p) ∧
    (∀ (α β : Type) (t : String) (p : α),
      (EventBus.empty (α := α) (β := β)).emit t p = none) := by
  refine ⟨fun α β bus t h1 h2 p => ?_, fun α β bus t h p => ?_,
    fun α β bus t t' h p hne => ?_, fun α β t p => rfl⟩
  · simp [EventBus.register, EventBus.emit]
  · simp [EventBus.register, EventBus.emit]
  · simp [EventBus.register, EventBus.emit, hne]

/-- C7 witness: replacement and isolation at concrete topics and handlers
over Nat payloads. -/
theorem c7_eventbus_contract_witness :
    ((EventBus.empty.register "a" (fun n : Nat => n + 1)).register "b"
        (fun n : Nat => n * 2)).emit "a" 10 =
      (EventBus.empty.register "a" (fun n : Nat => n + 1)).emit "a" 10 :=
  c7_eventbus_contract.2.2.1 Nat Nat
    (EventBus.empty.register "a" (fun n : Nat => n + 1)) "b" "a"
    (fun n : Nat => n * 2) 10 (by decide)

/-- C10: after `export(name, v)`, `hasExport(name)` holds and
`import(name)` returns the exported value; exporting one name leaves
imports of any other name unchanged; and over any history of exports from
the fresh bus, `import(name)` succeeds exactly when some export for `name`
occurred — it throws exactly on never-exported names. -/
theorem c10_databus_contract :
    (∀ (V : Type) (bus : DataBus V) (name : String) (v : V),
      (bus.exportVal name v).hasExport name = true ∧
      (bus.exportVal name v).importVal name = Except.ok v) ∧
    (∀ (V : Type) (bus : DataBus V) (name name' : String) (v : V),
      name' ≠ name →
      (bus.exportVal name v).importVal name' = bus.importVal name') ∧
    (∀ (V : Type) (ops : List (String × V)) (name : String),
      ((DataBus.runExports ops).importVal name).isOk = true ↔
        name ∈ ops.map Prod.fst) := by
  refine ⟨fun V bus name v => ?_, fun V bus name name' v hne => ?_,
    fun V ops name => ?_⟩
  · constructor
    · simp [DataBus.exportVal, DataBus.hasExport]
    · simp [DataBus.exportVal, DataBus.importVal]
  · simp [DataBus.exportVal, DataBus.importVal, hne]
  · rw [importVal_isOk, DataBus.runExports, runExports_isSome_aux]
    simp [DataBus.emptyBus]

/-- C10 witness: export then import at name "cfg" with value 42, isolation
for name "other", and the history ["cfg"] makes import of "cfg" succeed. -/
theorem c10_databus_contract_witness :
    ((DataBus.emptyBus.exportVal "cfg" (42 : Nat)).hasExport "cfg" = true ∧
      (DataBus.emptyBus.exportVal "cfg" (42 : Nat)).importVal "cfg"
        = Except.ok 42) ∧
    (DataBus.emptyBus.exportVal "cfg" (42 : Nat)).importVal "other"
      = DataBus.emptyBus.importVal "other" ∧
    (((DataBus.runExports [("cfg", (42 : Nat))]).importVal "cfg").isOk = true ↔
      "cfg" ∈ ([("cfg", (42 : Nat))].map Prod.fst)) :=
  ⟨c10_databus_contract.1 Nat DataBus.emptyBus "cfg" 42,
   c10_databus_contract.2.1 Nat DataBus.emptyBus "cfg" "other" 42 (by decide),
   c10_databus_contract.2.2 Nat [("cfg", 42)] "cfg"⟩

/-- C8 counterexample: the first iteration of `setRadiusCommand` rejects the
argument 2000 — which lies inside the claimed range [1, 8192] — reporting
failure and leaving the configured radius and bounds unchanged. -/
theorem c8_setradius_counterexample :
    (1 ≤ (2000 : Int) ∧ (2000 : Int) ≤ 8192) ∧
    setRadiusCommandV1 ⟨⟨0, 0, 0⟩, 5⟩ ⟨-50, 50, -50, 50⟩ 2000 =
      { reportedSuccess := false, exitCode := 0
        config := ⟨⟨0, 0, 0⟩, 5⟩, bounds := ⟨-50, 50, -50, 50⟩ } := by
  refine ⟨by decide, ?_⟩
  rfl

/-- C8 (amended): the second iteration of `setRadiusCommand` accepts
exactly the integers in [1, 8192] — updating the radius, recomputing the
bounds from the current center and reporting success with exit code 1 —
and rejects everything outside with failure, exit code 0 and no state
change; the first iteration behaves identically with the bound [1, 1000]. -/
theorem c8_setradius_bounds (cfg : AreaConfig) (b : AreaBounds) (r : Int) :
    (1 ≤ r → r ≤ 8192 →
      setRadiusCommand cfg b r =
        { reportedSuccess := true, exitCode := 1
          config := { cfg with radius := r }
          bounds := updateBounds cfg.center r }) ∧
    (r < 1 ∨ 8192 < r →
      setRadiusCommand cfg b r =
        { reportedSuccess := false, exitCode := 0, config := cfg
          bounds := b }) ∧
    (1 ≤ r → r ≤ 1000 →
      setRadiusCommandV1 cfg b r =
        { reportedSuccess := true, exitCode := 1
          config := { cfg with radius := r }
          bounds := updateBounds cfg.center r }) ∧
    (r < 1 ∨ 1000 < r →
      setRadiusCommandV1 cfg b r =
        { reportedSuccess := false, exitCode := 0, config := cfg
          bounds := b }) := by
  refine ⟨fun h1 h2 => ?_, fun h => ?_, fun h1 h2 => ?_, fun h => ?_⟩
  · simp only [setRadiusCommand]; rw [if_neg (by omega)]
  · simp only [setRadiusCommand]; rw [if_pos (by omega)]
  · simp only [setRadiusCommandV1]; rw [if_neg (by omega)]
  · simp only [setRadiusCommandV1]; rw [if_pos (by omega)]

/-- C8 witness: concrete invocations of the amended bound theorem at radius
8192 (accepted) and 8193 (rejected). -/
theorem c8_setradius_bounds_witness :
    setRadiusCommand ⟨⟨0, 0, 0⟩, 5⟩ ⟨-50, 50, -50, 50⟩ 8192 =
      { reportedSuccess := true, exitCode := 1
        config := ⟨⟨0, 0, 0⟩, 8192⟩
        bounds := updateBounds ⟨0, 0, 0⟩ 8192 } ∧
    setRadiusCommand ⟨⟨0, 0, 0⟩, 5⟩ ⟨-50, 50, -50, 50⟩ 8193 =
      { reportedSuccess := false, exitCode := 0
        config := ⟨⟨0, 0, 0⟩, 5⟩, bounds := ⟨-50, 50, -50, 50⟩ } :=
  ⟨(c8_setradius_bounds ⟨⟨0, 0, 0⟩, 5⟩ ⟨-50, 50, -50, 50⟩ 8192).1
      (by decide) (by decide),
   (c8_setradius_bounds ⟨⟨0, 0, 0⟩, 5⟩ ⟨-50, 50, -50, 50⟩ 8193).2.1
      (Or.inr (by decide))⟩

/-- C9: the whitelist add and remove handlers report failure (player
already whitelisted / not whitelisted) yet still return exit status 1,
contradicting the success(1)/failure(0) convention the other handlers
follow. -/
theorem c9_whitelist_exit_code_bug :
    ((whitelistAddCommand ["Alice"] "Alice").reportedSuccess = false ∧
      (whitelistAddCommand ["Alice"] "Alice").exitCode = 1) ∧
    ((whitelistRemoveCommand ["Bob"] "Alice").reportedSuccess = false ∧
      (whitelistRemoveCommand ["Bob"] "Alice").exitCode = 1) ∧
    (setRadiusCommand ⟨⟨0, 0, 0⟩, 5⟩ ⟨-50, 50, -50, 50⟩ 0).reportedSuccess
      = false ∧
    (setRadiusCommand ⟨⟨0, 0, 0⟩, 5⟩ ⟨-50, 50, -50, 50⟩ 0).exitCode = 0 := by
  decide
